import Mathlib

/-
Verification development for the gemini-api proxy server (src/server.py).

The resilience / session-continuity layer of the server is embedded shallowly:
pure computations become Lean functions, the module-level mutable globals
(gemini_client, auth_failure_count, last_auth_failure_time, active_chats and
the on-disk conversations directory) become an explicit ServerState record
threaded through the request handler, and the nondeterministic I/O performed
during one request (clock reads, uuid4, browser cookie harvest, the two
possible upstream send attempts) is supplied by an oracle record RequestEnv.
Comments on each definition cite the line numbers of server.py it embeds.
-/

namespace GeminiServer

/-- Conversation metadata is an opaque JSON blob round-tripped between the
upstream chat object and conversations/<id>.json; modelled as an opaque
string. -/
abbrev Metadata := String

/-- The upstream model enum values reachable through MODEL_MAP
(server.py lines 308-314). -/
inductive Model
| G_2_5_PRO
| G_2_5_FLASH
| G_3_0_PRO
| UNSPECIFIED
deriving DecidableEq

/-- server.py lines 296-298: one chat message of the request body. -/
structure Message where
  role : String
  content : String
deriving DecidableEq

/-- server.py lines 301-305: the request body of POST /v1/chat/completions.
The pydantic model places no lower bound on the length of messages, so the
empty list is accepted by validation. -/
structure ChatRequest where
  model : String
  messages : List Message
  conversation_id : Option String
  files : Option (List String)
deriving DecidableEq

/-- server.py lines 308-314 and 367: MODEL_MAP.get(request.model, UNSPECIFIED). -/
def MODEL_MAP (s : String) : Model :=
  if s = "gemini-pro" then .G_2_5_PRO
  else if s = "gemini-2.5-pro" then .G_2_5_PRO
  else if s = "gemini-2.5-flash" then .G_2_5_FLASH
  else if s = "gemini-3.0-pro" then .G_3_0_PRO
  else .UNSPECIFIED

/-- server.py line 58. -/
def NORMAL_COOL_DOWN : Nat := 900

/-- server.py line 59. -/
def CRITICAL_COOL_DOWN : Nat := 3600

/-- server.py line 60. -/
def JITTER_SECONDS : Nat := 300

/-- Breaker severity.  The code has no explicit severity field: the CRITICAL
level is represented by the counter being at or above 100 (lines 384 and 395
select the critical cool-down and the critical reason by the test
auth_failure_count greater-or-equal 100). -/
inductive Severity
| NORMAL
| CRITICAL
deriving DecidableEq

/-- Severity as derived from the failure counter (lines 384 and 395). -/
def severity (auth_failure_count : Nat) : Severity :=
  if 100 ≤ auth_failure_count then .CRITICAL else .NORMAL

/-- server.py line 384: base cool-down selected from the counter. -/
def base_cool_down (auth_failure_count : Nat) : Nat :=
  if 100 ≤ auth_failure_count then CRITICAL_COOL_DOWN else NORMAL_COOL_DOWN

/-- server.py line 509: a hard-limit (429) failure pins the counter at 100. -/
def recordFailureCritical (_ : Nat) : Nat := 100

/-- server.py lines 423-424 and 572-573: a normal failure increments the
counter only while it is below 100, so the critical pin is never disturbed. -/
def recordFailureNormal (auth_failure_count : Nat) : Nat :=
  if auth_failure_count < 100 then auth_failure_count + 1 else auth_failure_count

/-- server.py lines 493-495 and 568: any successful send leaves the counter
at zero. -/
def recordSuccess (_ : Nat) : Nat := 0

/-- Needle matches at the head of the haystack (character lists). -/
def charsMatchAt : List Char → List Char → Bool
  | [], _ => true
  | _ :: _, [] => false
  | a :: as, b :: bs => a == b && charsMatchAt as bs

/-- Needle occurs somewhere in the haystack (character lists). -/
def charsContain (needle : List Char) : List Char → Bool
  | [] => charsMatchAt needle []
  | b :: bs => charsMatchAt needle (b :: bs) || charsContain needle bs

/-- Python substring test: needle in hay. -/
def strContains (hay needle : String) : Bool :=
  charsContain needle.data hay.data

/-- Python str.lower() for the ASCII error texts matched by the handler
(server.py line 499). -/
def pyLower (s : String) : String :=
  String.mk (s.data.map Char.toLower)

/-- server.py lines 521-531: the authentication / connection-reset error
classifier applied to the lowercased error text. -/
def is_auth_error (error_str : String) : Bool :=
  strContains error_str "401" ||
  strContains error_str "403" ||
  strContains error_str "cookie" ||
  strContains error_str "unauthenticated" ||
  strContains error_str "invalid response" ||
  strContains error_str "failed to generate" ||
  strContains error_str "server disconnected" ||
  strContains error_str "remoteprotocolerror" ||
  strContains error_str "connection closed"

/-- Lookup in a python dict modelled as an association list. -/
def dictGet {α : Type} (k : String) : List (String × α) → Option α
  | [] => none
  | (k2, v) :: rest => if k == k2 then some v else dictGet k rest

/-- Assignment d[k] = v in a python dict modelled as an association list. -/
def dictSet {α : Type} (k : String) (v : α) (d : List (String × α)) :
    List (String × α) :=
  (k, v) :: d.filter (fun p => p.1 != k)

/-- Deletion del d[k] in a python dict modelled as an association list. -/
def dictDel {α : Type} (k : String) (d : List (String × α)) :
    List (String × α) :=
  d.filter (fun p => p.1 != k)

/-- An upstream chat handle as far as server.py observes it: the metadata it
was started from (gemini_client.start_chat, lines 443, 451, 554, 556) and the
model. -/
structure Chat where
  metadata : Option Metadata
  model : Model
deriving DecidableEq

/-- gemini_client.start_chat: with metadata (lines 443, 554) or without
(lines 451, 556). -/
def start_chat (metadata : Option Metadata) (model : Model) : Chat :=
  ⟨metadata, model⟩

/-- Outcome of reading cookie_cache.json (server.py lines 116-127):
the open/parse can raise, or it parses and the two fields are each present
or absent. -/
inductive CacheRead
| raisesOnRead
| parsed (psid : Option String) (ts : Option String)
deriving DecidableEq

/-- The environment observed by get_auto_cookies during one call:
whether cookie_cache.json exists and what reading it yields, whether
browser_cookie3 imported (line 25-28), what the browser harvest yields
(none models the chrome() call raising, lines 137 and 167-169; otherwise the
two cookies found by the jar scan, lines 141-145), and whether the best-effort
cache write succeeds (lines 151-160). -/
structure CookieEnv where
  cacheFile : Option CacheRead
  browserAvailable : Bool
  harvest : Option (Option String × Option String)
  cacheWriteOk : Bool
deriving DecidableEq

/-- Python truthiness of an optional string (None and the empty string are
falsy). -/
def truthy : Option String → Bool
  | none => false
  | some s => !s.isEmpty

/-- server.py lines 107-169: get_auto_cookies.  With force_refresh false a
cache entry whose two fields are truthy is returned without any harvest; a
read/parse failure or incomplete entry falls through to the browser harvest.
The harvest returns the pair when both cookies are found and truthy (the
cache write at lines 151-160 is best-effort: its outcome never changes the
returned value), and (None, None) — modelled as none — on every failure.
The function is total: no exception escapes this boundary. -/
def get_auto_cookies (force_refresh : Bool) (env : CookieEnv) :
    Option (String × String) :=
  let cached : Option (String × String) :=
    if force_refresh then none
    else
      match env.cacheFile with
      | none => none
      | some .raisesOnRead => none
      | some (.parsed psid ts) =>
        if truthy psid && truthy ts then
          some (psid.getD "", ts.getD "")
        else none
  match cached with
  | some pair => some pair
  | none =>
    if !env.browserAvailable then none
    else
      match env.harvest with
      | none => none
      | some (psid, ts) =>
        if truthy psid && truthy ts then
          some (psid.getD "", ts.getD "")
        else none

/-- server.py line 471: role label of one injected history line. -/
def role_label (role : String) : String :=
  if role == "user" then "User" else "Model"

/-- server.py line 472: one injected history line. -/
def context_line (m : Message) : String :=
  "[" ++ role_label m.role ++ "]: " ++ m.content ++ "\n"

/-- server.py line 464: all_messages[-11:-1], the last at most ten messages
before the latest one. -/
def recent_messages (all_messages : List Message) : List Message :=
  (all_messages.drop (all_messages.length - 11)).dropLast

/-- Sequential concatenation, modelling the += accumulation of context_str
(server.py lines 469-475). -/
def joinAll : List String → String
  | [] => ""
  | s :: rest => s ++ joinAll rest

/-- server.py line 469. -/
def historyHeader : String :=
  "Here is the conversation history so far for context:\n\n"

/-- server.py line 474. -/
def systemLine : String :=
  "\n[System]: Please continue the conversation based on the history above.\n"

/-- server.py lines 458-477: the prompt actually forwarded.  When the session
was not recovered and the caller supplied more than one message, the history
preamble is injected; otherwise the latest message is forwarded unchanged. -/
def build_final_prompt (is_recovered_session : Bool)
    (all_messages : List Message) (current_msg_content : String) : String :=
  if is_recovered_session = false ∧ 1 < all_messages.length then
    historyHeader ++ joinAll ((recent_messages all_messages).map context_line)
      ++ systemLine ++ "\n[User]: " ++ current_msg_content
  else current_msg_content

/-- Python truthiness of the optional files list (None and the empty list are
falsy, server.py lines 487 and 562). -/
def filesTruthy : Option (List String) → Bool
  | none => false
  | some l => !l.isEmpty

/-- server.py lines 487-490 (and identically 562-565): with truthy files the
raw latest message is sent, otherwise the final prompt. -/
def sent_text (files : Option (List String)) (final_prompt : String)
    (current_msg_content : String) : String :=
  if filesTruthy files then current_msg_content else final_prompt

/-- server.py lines 433-453: get-or-create of the conversation session.
Returns the effective conversation id, the chat, the is_recovered_session
flag and the updated in-memory map. -/
def acquireSession (conversation_id : Option String) (fresh_id : String)
    (active_chats : List (String × Chat))
    (conversations : List (String × Metadata)) (model : Model) :
    String × Chat × Bool × List (String × Chat) :=
  match conversation_id with
  | some cid =>
    match dictGet cid active_chats with
    | some chat => (cid, chat, true, active_chats)
    | none =>
      match dictGet cid conversations with
      | some metadata =>
        let chat := start_chat (some metadata) model
        (cid, chat, true, dictSet cid chat active_chats)
      | none =>
        let chat := start_chat none model
        (cid, chat, false, dictSet cid chat active_chats)
  | none =>
    let chat := start_chat none model
    (fresh_id, chat, false, dictSet fresh_id chat active_chats)

/-- The module-level mutable state of server.py read or written by one
chat request: gemini_client (held as the credential pair it was built from),
auth_failure_count, last_auth_failure_time, active_chats, and the contents of
the conversations directory as a key-value store. -/
structure ServerState where
  gemini_client : Option (String × String)
  auth_failure_count : Nat
  last_auth_failure_time : Int
  active_chats : List (String × Chat)
  conversations : List (String × Metadata)
deriving DecidableEq

/-- Outcome of one awaited chat.send_message call: the response (its text,
which can be None, and the library-updated chat metadata later persisted at
line 594), or the exception text str(e). -/
inductive SendResult
| ok (text : Option String) (newMetadata : Metadata)
| exn (message : String)
deriving DecidableEq

/-- The I/O oracle for one request: the clock value read at line 500, the
uuid generated at line 450, the outcome of the first send, the environment of
the forced cookie refresh at line 539, whether the client re-init at line 548
succeeds, and the outcome of the resend. -/
structure RequestEnv where
  tFail : Int
  fresh_id : String
  firstSend : SendResult
  refreshCookies : CookieEnv
  refreshInitOk : Bool
  resend : SendResult
deriving DecidableEq

/-- The externally visible outcome of a request: the success payload
(conversation id and content) or an HTTP error status with its detail
string. -/
inductive HandlerResult
| success (conversation_id : String) (content : String)
| httpError (status : Nat) (detail : String)
deriving DecidableEq

/-- The str(e) detail surfaced when line 388 evaluates random.randint: line 13
reads from random import random, binding the name random to the function
random.random, which has no randint attribute, so an AttributeError is raised
(Python renders the two names of its message inside single quotes, elided
here). -/
def attributeErrorDetail : String :=
  "builtin_function_or_method object has no attribute randint"

/-- server.py line 515. -/
def rateLimitDetail : String :=
  "Upstream service rate limited (429). System entering deep freeze for 1 hour."

/-- server.py line 580 (f-string with the post-increment failure count). -/
def authExhaustedDetail (count : Nat) : String :=
  "Session expired and recover failed. Failure count: " ++ toString count

/-- server.py lines 570-581: the retry_e handler — normal failure recorded,
last failure time stamped, 401 with the updated count.  The trace argument
lists the resend attempts already made inside the recovery block. -/
def recoverFailed (current_time : Int) (trace : List String)
    (st : ServerState) : ServerState × List String × HandlerResult :=
  let newCount := recordFailureNormal st.auth_failure_count
  ({ st with auth_failure_count := newCount,
             last_auth_failure_time := current_time },
   trace, .httpError 401 (authExhaustedDetail newCount))

/-- server.py lines 590-622: response processing after a successful send —
the chat metadata is persisted to the conversation store and the response
text (empty when None) is returned.  The media post-processing of lines
596-609 only appends markdown links to the content and is outside the
modelled fragment. -/
def processResponse (cid : String) (text : Option String)
    (newMetadata : Metadata) (st : ServerState) :
    ServerState × HandlerResult :=
  ({ st with conversations := dictSet cid newMetadata st.conversations },
   .success cid (text.getD ""))

/-- server.py lines 497-585: classification of a first-send failure.
message is str(first_e); error_str its lowercasing (line 499).  A hard-limit
text pins the counter at 100, stamps the failure time, and fails with 429,
attempting no resend.  An authentication text triggers the recovery block:
forced cookie refresh (line 539), client replacement (lines 547-548 — the
global is replaced before init, so it is already swapped when init fails),
session rebuild (lines 551-558) and one resend; any failure inside the block
lands in recoverFailed.  Every other error is re-raised and reaches the
outer handler (lines 626-630) as a 500 carrying str(e), with no state
change.  The middle component of the result lists the texts of resend
attempts. -/
def handleSendFailure (message : String) (cid : String) (model : Model)
    (send_text : String) (st : ServerState) (env : RequestEnv) :
    ServerState × List String × HandlerResult :=
  let error_str := pyLower message
  let current_time := env.tFail
  if strContains error_str "429" then
    ({ st with auth_failure_count := recordFailureCritical st.auth_failure_count,
               last_auth_failure_time := current_time },
     [], .httpError 429 rateLimitDetail)
  else if is_auth_error error_str then
    match get_auto_cookies true env.refreshCookies with
    | none => recoverFailed current_time [] st
    | some pair =>
      let st1 := { st with gemini_client := some pair }
      if env.refreshInitOk then
        let chat2 :=
          match dictGet cid st1.active_chats with
          | some old_chat => start_chat old_chat.metadata model
          | none => start_chat none model
        let st2 := { st1 with active_chats := dictSet cid chat2 st1.active_chats }
        match env.resend with
        | .ok text newMetadata =>
          let st3 := { st2 with
                        auth_failure_count := recordSuccess st2.auth_failure_count }
          let out := processResponse cid text newMetadata st3
          (out.1, [send_text], out.2)
        | .exn _ => recoverFailed current_time [send_text] st2
      else recoverFailed current_time [] st1
  else
    (st, [], .httpError 500 message)

/-- server.py lines 357-630: the POST /v1/chat/completions handler.
Line 366 indexes all_messages[-1] first, so the empty list raises IndexError,
surfaced by the outer handler as a 500.  Lines 380-428 are the admission
check: on entry (no client, or counter at least 3) line 388 evaluates
random.randint on the function bound by line 13 and raises AttributeError —
no 503 rejection, no elapsed-time comparison, and no re-initialization
(lines 390-428) is ever reached; the outer handler turns it into a 500.
Otherwise the session is acquired, the prompt built, and the first send
performed; success resets the counter and persists the metadata, failure is
classified by handleSendFailure.  The middle component of the result lists
the texts passed to send_message, in order. -/
def chat_completions (request : ChatRequest) (env : RequestEnv)
    (st : ServerState) : ServerState × List String × HandlerResult :=
  match request.messages.getLast? with
  | none => (st, [], .httpError 500 "list index out of range")
  | some lastMsg =>
    let current_msg_content := lastMsg.content
    let model := MODEL_MAP request.model
    if st.gemini_client.isNone = true ∨ 3 ≤ st.auth_failure_count then
      (st, [], .httpError 500 attributeErrorDetail)
    else
      let acq := acquireSession request.conversation_id env.fresh_id
                   st.active_chats st.conversations model
      let cid := acq.1
      let is_recovered_session := acq.2.2.1
      let st1 := { st with active_chats := acq.2.2.2 }
      let final_prompt := build_final_prompt is_recovered_session
                            request.messages current_msg_content
      let send_text := sent_text request.files final_prompt current_msg_content
      match env.firstSend with
      | .ok text newMetadata =>
        let st2 := { st1 with
                      auth_failure_count := recordSuccess st1.auth_failure_count }
        let out := processResponse cid text newMetadata st2
        (out.1, [send_text], out.2)
      | .exn message =>
        let out := handleSendFailure message cid model send_text st1 env
        (out.1, send_text :: out.2.1, out.2.2)

/-- Result of DELETE /conversations/(id). -/
inductive DeleteResult
| deleted
| notFound
deriving DecidableEq

/-- server.py lines 671-679: the in-memory session is deleted first; only
then is the persisted file checked, unlinked on existence, and a 404 raised
otherwise. -/
def delete_conversation (conversation_id : String)
    (active_chats : List (String × Chat))
    (conversations : List (String × Metadata)) :
    List (String × Chat) × List (String × Metadata) × DeleteResult :=
  let chats1 :=
    if (dictGet conversation_id active_chats).isSome then
      dictDel conversation_id active_chats
    else active_chats
  match dictGet conversation_id conversations with
  | some _ => (chats1, dictDel conversation_id conversations, .deleted)
  | none => (chats1, conversations, .notFound)

/-- A concrete in-memory chat used by the concrete evaluations below. -/
def chatA : Chat := ⟨some "mdA", .UNSPECIFIED⟩

/-- A concrete healthy server state: client present, two prior failures. -/
def stA : ServerState :=
  ⟨some ("psidA", "tsA"), 2, 5, [("conv1", chatA)], [("conv2", "mdB")]⟩

/-- A concrete cookie environment: a valid, parseable cache entry holding a
stale pair, a browser harvest yielding a different fresh pair, and a failing
cache write. -/
def cookieEnvA : CookieEnv :=
  ⟨some (.parsed (some "stale1") (some "stale2")), true,
   some (some "fresh1", some "fresh2"), false⟩

/-- A concrete request oracle: first send succeeds. -/
def envA : RequestEnv :=
  ⟨7, "fresh-1", .ok (some "hello") "mdC", cookieEnvA, true, .ok (some "again") "mdD"⟩

/-- A concrete request oracle: first send fails with an auth error, refresh
and resend succeed. -/
def envB : RequestEnv :=
  { envA with firstSend := .exn "401 Unauthorized" }

/-- A concrete chat request with a single message. -/
def reqA : ChatRequest := ⟨"gemini-pro", [⟨"user", "hi"⟩], none, none⟩

/-- A concrete five-message history (four prior turns plus the latest). -/
def msgsA : List Message :=
  [⟨"user", "m1"⟩, ⟨"assistant", "m2"⟩, ⟨"user", "m3"⟩,
   ⟨"assistant", "m4"⟩, ⟨"user", "q5"⟩]

/-- Iterating the hard-limit failure transition at least once always lands on
the pinned value 100. -/
theorem recordFailureCritical_iterate (j : Nat) (n : Nat) :
    Nat.iterate recordFailureCritical (j + 1) n = 100 := by
  induction j generalizing n with
  | zero => rfl
  | succ j ih => exact ih 100

/-- dropLast commutes with drop. -/
theorem dropLast_drop_comm {α : Type} (l : List α) (i : Nat) :
    (l.drop i).dropLast = l.dropLast.drop i := by
  induction l generalizing i with
  | nil => simp
  | cons a rest ih =>
      cases i with
      | zero => simp
      | succ i =>
          cases rest with
          | nil => simp
          | cons b r2 =>
              rw [List.drop_succ_cons, ih]
              rfl

/-- Every element of a list contributes its image as a factor of the
sequential concatenation of the images. -/
theorem joinAll_mem_split (f : Message → String) (l : List Message)
    (m : Message) (hm : m ∈ l) :
    ∃ s t, joinAll (l.map f) = s ++ f m ++ t := by
  induction l with
  | nil => cases hm
  | cons a rest ih =>
      rcases List.mem_cons.mp hm with rfl | hm2
      · exact ⟨"", joinAll (rest.map f), rfl⟩
      · obtain ⟨s, t, hst⟩ := ih hm2
        refine ⟨f a ++ s, t, ?_⟩
        show f a ++ joinAll (rest.map f) = f a ++ s ++ f m ++ t
        rw [hst, String.append_assoc, String.append_assoc,
            String.append_assoc]

/-- After deleting a key, looking it up yields nothing. -/
theorem dictGet_dictDel_self {α : Type} (k : String) (d : List (String × α)) :
    dictGet k (dictDel k d) = none := by
  induction d with
  | nil => rfl
  | cons p rest ih =>
      obtain ⟨k2, v⟩ := p
      by_cases h : k2 = k
      · simpa [dictDel, List.filter_cons, h] using ih
      · have hne : (k == k2) = false := by
          simp [beq_eq_false_iff_ne]
          exact fun h2 => h h2.symm
        simpa [dictDel, List.filter_cons, h, dictGet, hne] using ih

/-- C1: the spec requires that while the breaker is OPEN (client absent or
counter at/above 3) admit() compute coolDown = baseCoolDown(severity) plus a
uniform jitter draw and reject with a structured 503 and a positive
retry-after hint whenever the elapsed time is short; the code instead crashes
at the jitter computation — line 13 binds the name random to the function
random.random, so line 388 raises AttributeError — and every admission-checked
request is surfaced as a 500, with no client present, with the counter at the
threshold, and with the counter at the critical pin alike, leaving the state
untouched. -/
theorem c1_admission_raises_attribute_error :
    chat_completions reqA envA ⟨none, 0, 0, [], []⟩ =
      (⟨none, 0, 0, [], []⟩, [], .httpError 500 attributeErrorDetail)
    ∧ chat_completions reqA envA ⟨some ("p", "t"), 3, 0, [], []⟩ =
      (⟨some ("p", "t"), 3, 0, [], []⟩, [], .httpError 500 attributeErrorDetail)
    ∧ chat_completions reqA ⟨9999999, "f", .ok none "m", cookieEnvA, true, .ok none "m"⟩
        ⟨some ("p", "t"), 100, 0, [], []⟩ =
      (⟨some ("p", "t"), 100, 0, [], []⟩, [], .httpError 500 attributeErrorDetail) :=
  ⟨rfl, rfl, rfl⟩

/-- C2: a first-send failure whose text contains the hard-limit indicator 429
pins the counter at 100 (the CRITICAL level), stamps the last-failure time
with the current clock, attempts no resend (empty resend trace, and the
result does not depend on the resend oracle), and fails the request with HTTP
status 429. -/
theorem c2_hard_limit_critical (message cid : String) (model : Model)
    (send_text : String) (st : ServerState) (env : RequestEnv)
    (h : strContains (pyLower message) "429" = true) :
    handleSendFailure message cid model send_text st env =
      ({ st with auth_failure_count := 100, last_auth_failure_time := env.tFail },
       [], .httpError 429 rateLimitDetail)
    ∧ severity 100 = .CRITICAL := by
  refine ⟨?_, rfl⟩
  simp [handleSendFailure, h, recordFailureCritical]

/-- C2 witness: concrete evaluation of the theorem at a 429 error text. -/
theorem c2_hard_limit_critical_witness :
    handleSendFailure "HTTP 429 Too Many Requests" "conv1" .UNSPECIFIED "hi"
        stA envA =
      ({ stA with auth_failure_count := 100, last_auth_failure_time := envA.tFail },
       [], .httpError 429 rateLimitDetail)
    ∧ severity 100 = .CRITICAL :=
  c2_hard_limit_critical "HTTP 429 Too Many Requests" "conv1" .UNSPECIFIED "hi"
    stA envA (by decide)

/-- C3: after k consecutive hard-limited failures the counter equals the
pinned cap 100 rather than growing with k; once at or above the cap a later
normal failure neither lowers the counter below the cap nor downgrades the
severity from CRITICAL; only a success clears the counter to 0 and the
severity to NORMAL. -/
theorem c3_critical_pin_sticky (k n m : Nat) (hk : 1 ≤ k) (hm : 100 ≤ m) :
    Nat.iterate recordFailureCritical k n = 100
    ∧ recordFailureNormal m = m
    ∧ 100 ≤ recordFailureNormal m
    ∧ severity (recordFailureNormal m) = .CRITICAL
    ∧ severity (recordFailureCritical n) = .CRITICAL
    ∧ recordSuccess m = 0
    ∧ severity (recordSuccess m) = .NORMAL := by
  obtain ⟨j, rfl⟩ : ∃ j, k = j + 1 := ⟨k - 1, by omega⟩
  have hnormal : recordFailureNormal m = m := by
    simp [recordFailureNormal]
    omega
  refine ⟨recordFailureCritical_iterate j n, hnormal, ?_, ?_, rfl, rfl, rfl⟩
  · rw [hnormal]; exact hm
  · rw [hnormal]; simp [severity, hm]

/-- C3 witness: concrete evaluation at k = 2 failures and the pinned value. -/
theorem c3_critical_pin_sticky_witness :
    Nat.iterate recordFailureCritical 2 5 = 100
    ∧ recordFailureNormal 100 = 100
    ∧ 100 ≤ recordFailureNormal 100
    ∧ severity (recordFailureNormal 100) = .CRITICAL
    ∧ severity (recordFailureCritical 5) = .CRITICAL
    ∧ recordSuccess 100 = 0
    ∧ severity (recordSuccess 100) = .NORMAL :=
  c3_critical_pin_sticky 2 5 100 (by decide) (by decide)

/-- C5: with forceRefresh true the durable cache is never read — the result
is unchanged under any replacement of the cache contents and equals the
live-harvest outcome — the best-effort cache write never alters the result,
a raising harvest or an unavailable harvester yields absent, and the supplier
is a total function (no exception passes the boundary); concretely, a valid
parseable stale cache entry together with a different fresh harvest yields
the fresh pair even when the cache write fails. -/
theorem c5_force_refresh_bypasses_cache :
    (∀ (env : CookieEnv) (c : Option CacheRead),
        get_auto_cookies true { env with cacheFile := c } =
          get_auto_cookies true env)
    ∧ (∀ (env : CookieEnv) (w : Bool),
        get_auto_cookies true { env with cacheWriteOk := w } =
          get_auto_cookies true env)
    ∧ (∀ env : CookieEnv,
        get_auto_cookies true { env with harvest := none } = none)
    ∧ (∀ (c : Option CacheRead) (h : Option (Option String × Option String))
        (w : Bool), get_auto_cookies true ⟨c, false, h, w⟩ = none)
    ∧ get_auto_cookies true cookieEnvA = some ("fresh1", "fresh2") := by
  refine ⟨fun env c => rfl, fun env w => rfl, ?_, fun c h w => rfl, rfl⟩
  intro env
  rcases env with ⟨c, b, h, w⟩
  cases b <;> rfl

/-- C7: a first-send failure whose text matches neither the hard-limit
indicator nor any authentication/connection-reset indicator is re-raised and
surfaced as a 500 carrying the original message, and the whole server state —
in particular the failure counter and the last-failure timestamp — is left
exactly unchanged, with no resend attempted. -/
theorem c7_unclassified_passthrough (message cid : String) (model : Model)
    (send_text : String) (st : ServerState) (env : RequestEnv)
    (h429 : strContains (pyLower message) "429" = false)
    (hauth : is_auth_error (pyLower message) = false) :
    handleSendFailure message cid model send_text st env =
      (st, [], .httpError 500 message) := by
  simp [handleSendFailure, h429, hauth]

/-- C7 witness: concrete evaluation at an unclassified error text. -/
theorem c7_unclassified_passthrough_witness :
    handleSendFailure "unexpected upstream timeout" "conv1" .UNSPECIFIED "hi"
        stA envA =
      (stA, [], .httpError 500 "unexpected upstream timeout") :=
  c7_unclassified_passthrough "unexpected upstream timeout" "conv1"
    .UNSPECIFIED "hi" stA envA (by decide) (by decide)

/-- C8: session acquisition precedence — an in-memory session for the id is
returned as-is (map unchanged); otherwise a persisted record yields a session
built from the record metadata, cached in memory and marked recovered;
otherwise a brand-new session is built and cached, keeping the supplied id,
and when the caller supplied no id the freshly generated identifier is
used. -/
theorem c8_session_precedence (cid fresh_id : String)
    (chats : List (String × Chat)) (store : List (String × Metadata))
    (model : Model) (c : Chat) (md : Metadata) :
    (dictGet cid chats = some c →
       acquireSession (some cid) fresh_id chats store model =
         (cid, c, true, chats))
    ∧ (dictGet cid chats = none → dictGet cid store = some md →
       acquireSession (some cid) fresh_id chats store model =
         (cid, start_chat (some md) model, true,
          dictSet cid (start_chat (some md) model) chats))
    ∧ (dictGet cid chats = none → dictGet cid store = none →
       acquireSession (some cid) fresh_id chats store model =
         (cid, start_chat none model, false,
          dictSet cid (start_chat none model) chats))
    ∧ acquireSession none fresh_id chats store model =
        (fresh_id, start_chat none model, false,
         dictSet fresh_id (start_chat none model) chats) := by
  refine ⟨fun h => ?_, fun h1 h2 => ?_, fun h1 h2 => ?_, rfl⟩
  · simp [acquireSession, h]
  · simp [acquireSession, h1, h2]
  · simp [acquireSession, h1, h2]

/-- C8 witness: concrete evaluation of the three branches and the fresh-id
case. -/
theorem c8_session_precedence_witness :
    acquireSession (some "conv1") "fresh-1" [("conv1", chatA)] [] .UNSPECIFIED =
      ("conv1", chatA, true, [("conv1", chatA)])
    ∧ acquireSession (some "conv2") "fresh-1" [] [("conv2", "mdB")] .UNSPECIFIED =
      ("conv2", start_chat (some "mdB") .UNSPECIFIED, true,
       dictSet "conv2" (start_chat (some "mdB") .UNSPECIFIED) [])
    ∧ acquireSession (some "conv3") "fresh-1" [] [] .UNSPECIFIED =
      ("conv3", start_chat none .UNSPECIFIED, false,
       dictSet "conv3" (start_chat none .UNSPECIFIED) [])
    ∧ acquireSession none "fresh-1" [] [] .UNSPECIFIED =
      ("fresh-1", start_chat none .UNSPECIFIED, false,
       dictSet "fresh-1" (start_chat none .UNSPECIFIED) []) :=
  ⟨(c8_session_precedence "conv1" "fresh-1" [("conv1", chatA)] [] .UNSPECIFIED
      chatA "x").1 (by decide),
   (c8_session_precedence "conv2" "fresh-1" [] [("conv2", "mdB")] .UNSPECIFIED
      chatA "mdB").2.1 (by decide) (by decide),
   (c8_session_precedence "conv3" "fresh-1" [] [] .UNSPECIFIED
      chatA "x").2.2.1 (by decide) (by decide),
   (c8_session_precedence "conv4" "fresh-1" [] [] .UNSPECIFIED
      chatA "x").2.2.2⟩

/-- C9: a chat request with an empty messages list makes line 366 index
all_messages[-1] and raise IndexError before any breaker, session or send
logic runs — the state is returned untouched, no text is ever sent, and the
outer handler surfaces the error as a 500 — for every state, including those
in which the admission check would otherwise have fired; the request type
itself places no lower bound on the list, so validation admits the empty
list. -/
theorem c9_empty_messages_index_error (model : String)
    (conversation_id : Option String) (files : Option (List String))
    (env : RequestEnv) (st : ServerState) :
    chat_completions ⟨model, [], conversation_id, files⟩ env st =
      (st, [], .httpError 500 "list index out of range") := rfl

/-- C10: the conversation-delete operation is not atomic on error — when the
id has an in-memory session but no persisted file, the handler removes the
in-memory session (the map genuinely changes and the id no longer resolves)
and then reports 404 not-found, mutating state while reporting failure. -/
theorem c10_delete_not_atomic (cid : String) (chats : List (String × Chat))
    (store : List (String × Metadata)) (c : Chat)
    (hmem : dictGet cid chats = some c) (hdisk : dictGet cid store = none) :
    delete_conversation cid chats store =
      (dictDel cid chats, store, .notFound)
    ∧ dictGet cid (dictDel cid chats) = none
    ∧ dictDel cid chats ≠ chats := by
  have hsome : (dictGet cid chats).isSome = true := by rw [hmem]; rfl
  refine ⟨?_, dictGet_dictDel_self cid chats, ?_⟩
  · simp [delete_conversation, hsome, hdisk]
  · intro heq
    have h2 := dictGet_dictDel_self cid chats
    rw [heq, hmem] at h2
    exact Option.noConfusion h2

/-- C10 witness: concrete in-memory-only conversation. -/
theorem c10_delete_not_atomic_witness :
    delete_conversation "conv1" [("conv1", chatA)] [] =
      (dictDel "conv1" [("conv1", chatA)], [], .notFound)
    ∧ dictGet "conv1" (dictDel "conv1" [("conv1", chatA)]) = none
    ∧ dictDel "conv1" [("conv1", chatA)] ≠ [("conv1", chatA)] :=
  c10_delete_not_atomic "conv1" [("conv1", chatA)] [] chatA (by decide) rfl

/-- C4: from every state of the failure counter, a single successful send
leaves the counter at 0 and hence the severity at NORMAL — both for a
successful first attempt (any state admitted to the send, i.e. client
present and counter below the threshold) and for the post-refresh resend
inside the recovery branch. -/
theorem c4_success_resets_counter :
    (∀ (request : ChatRequest) (env : RequestEnv) (st : ServerState)
        (text : Option String) (newMd : Metadata) (lastMsg : Message)
        (pair : String × String),
        request.messages.getLast? = some lastMsg →
        st.gemini_client = some pair →
        st.auth_failure_count < 3 →
        env.firstSend = .ok text newMd →
        (chat_completions request env st).1.auth_failure_count = 0
        ∧ severity (chat_completions request env st).1.auth_failure_count =
            .NORMAL)
    ∧ (∀ (message cid : String) (model : Model) (send_text : String)
        (st : ServerState) (env : RequestEnv) (pair : String × String)
        (text : Option String) (newMd : Metadata),
        strContains (pyLower message) "429" = false →
        is_auth_error (pyLower message) = true →
        get_auto_cookies true env.refreshCookies = some pair →
        env.refreshInitOk = true →
        env.resend = .ok text newMd →
        (handleSendFailure message cid model send_text st env).1.auth_failure_count
          = 0
        ∧ severity
            (handleSendFailure message cid model send_text st env).1.auth_failure_count
          = .NORMAL) := by
  constructor
  · intro request env st text newMd lastMsg pair hmsg hc hafc hsend
    have h3 : ¬ 3 ≤ st.auth_failure_count := by omega
    simp [chat_completions, hmsg, hc, h3, hsend, processResponse,
          recordSuccess, severity]
  · intro message cid model send_text st env pair text newMd h429 hauth
      hrefresh hinit hres
    simp [handleSendFailure, h429, hauth, hrefresh, hinit, hres,
          processResponse, recordSuccess, severity]

/-- C4 witness: concrete evaluations of the first-attempt reset (state with
two prior failures) and of the post-refresh resend reset. -/
theorem c4_success_resets_counter_witness :
    ((chat_completions reqA envA stA).1.auth_failure_count = 0
     ∧ severity (chat_completions reqA envA stA).1.auth_failure_count =
         .NORMAL)
    ∧ ((handleSendFailure "401 Unauthorized" "conv1" .UNSPECIFIED "hi" stA
          envB).1.auth_failure_count = 0
       ∧ severity
           (handleSendFailure "401 Unauthorized" "conv1" .UNSPECIFIED "hi" stA
             envB).1.auth_failure_count = .NORMAL) :=
  ⟨c4_success_resets_counter.1 reqA envA stA (some "hello") "mdC"
     ⟨"user", "hi"⟩ ("psidA", "tsA") rfl rfl (by decide) rfl,
   c4_success_resets_counter.2 "401 Unauthorized" "conv1" .UNSPECIFIED "hi"
     stA envB ("fresh1", "fresh2") (some "again") "mdD" (by decide)
     (by decide) rfl rfl rfl⟩

/-- C6: without file attachments, a non-recovered session together with more
than one supplied message yields the composite prompt — the history header,
the last at-most-ten prior turns each serialized as a role-labeled line
(the recent slice is exactly the last ten of the prior messages and each
of its labeled lines occurs inside the forwarded text), the instruction
line, and the latest message at the end; a recovered session forwards the
latest message exactly; and a request with (truthy) file attachments sends
the raw latest message with no synthetic preamble. -/
theorem c6_context_injection (all_messages : List Message)
    (current_msg_content : String) (files : List String)
    (h1 : 1 < all_messages.length) (hf : files ≠ []) :
    build_final_prompt false all_messages current_msg_content =
      historyHeader ++ joinAll ((recent_messages all_messages).map context_line)
        ++ systemLine ++ "\n[User]: " ++ current_msg_content
    ∧ (recent_messages all_messages).length = min 10 (all_messages.length - 1)
    ∧ recent_messages all_messages =
        all_messages.dropLast.drop (all_messages.dropLast.length - 10)
    ∧ (∀ m ∈ recent_messages all_messages,
        ∃ s t, build_final_prompt false all_messages current_msg_content =
          s ++ context_line m ++ t)
    ∧ (∃ s, build_final_prompt false all_messages current_msg_content =
        s ++ ("\n[User]: " ++ current_msg_content))
    ∧ (∀ (all2 : List Message) (cur2 : String),
        build_final_prompt true all2 cur2 = cur2)
    ∧ sent_text (some files)
        (build_final_prompt false all_messages current_msg_content)
        current_msg_content = current_msg_content := by
  have hcond : (false = false ∧ 1 < all_messages.length) := ⟨rfl, h1⟩
  have hbp : build_final_prompt false all_messages current_msg_content =
      historyHeader ++ joinAll ((recent_messages all_messages).map context_line)
        ++ systemLine ++ "\n[User]: " ++ current_msg_content := by
    unfold build_final_prompt
    rw [if_pos hcond]
  refine ⟨hbp, ?_, ?_, ?_, ?_, ?_, ?_⟩
  · simp [recent_messages, List.length_dropLast, List.length_drop]
    omega
  · have h11 : all_messages.dropLast.length - 10 = all_messages.length - 11 := by
      rw [List.length_dropLast]
      omega
    unfold recent_messages
    rw [dropLast_drop_comm, h11]
  · intro m hm
    obtain ⟨s, t, hst⟩ :=
      joinAll_mem_split context_line (recent_messages all_messages) m hm
    refine ⟨historyHeader ++ s,
            t ++ (systemLine ++ ("\n[User]: " ++ current_msg_content)), ?_⟩
    rw [hbp, hst]
    simp only [String.append_assoc]
  · refine ⟨historyHeader ++
      joinAll ((recent_messages all_messages).map context_line) ++ systemLine,
      ?_⟩
    rw [hbp]
    simp only [String.append_assoc]
  · intro all2 cur2
    simp [build_final_prompt]
  · cases files with
    | nil => exact absurd rfl hf
    | cons a l => simp [sent_text, filesTruthy]

/-- C6 witness: concrete evaluation at a five-message history (four prior
turns) with a nonempty files list. -/
theorem c6_context_injection_witness :
    build_final_prompt false msgsA "q5" =
      historyHeader ++ joinAll ((recent_messages msgsA).map context_line)
        ++ systemLine ++ "\n[User]: " ++ "q5"
    ∧ (recent_messages msgsA).length = min 10 (msgsA.length - 1)
    ∧ recent_messages msgsA =
        msgsA.dropLast.drop (msgsA.dropLast.length - 10)
    ∧ (∀ m ∈ recent_messages msgsA,
        ∃ s t, build_final_prompt false msgsA "q5" = s ++ context_line m ++ t)
    ∧ (∃ s, build_final_prompt false msgsA "q5" = s ++ ("\n[User]: " ++ "q5"))
    ∧ (∀ (all2 : List Message) (cur2 : String),
        build_final_prompt true all2 cur2 = cur2)
    ∧ sent_text (some ["f"]) (build_final_prompt false msgsA "q5") "q5" =
        "q5" :=
  c6_context_injection msgsA "q5" ["f"] (by decide) (by decide)

end GeminiServer
